import Mathlib

/-!
Shallow embedding of the AI-Based Interview Question Generator repository.

The embedded modules are app/question_bank.py (QuestionBank), app/question_generator.py
(QuestionGenerator.generate_questions and its helpers) and app/vector_storage.py
(VectorStorage, flat-file local-storage path). Python strings are Lean String values;
Python string primitives (lower, strip, split, replace, find, rfind, slicing, the
in-operator and lexicographic comparison) are modelled character-by-character below so
that every definition evaluates inside the kernel. External effects are explicit
parameters: the OpenAI call outcome, the json.loads behaviour, uuid4, datetime.now and
file I/O success are all inputs of the embedded functions.
-/

/-- Python str.lower for the ASCII strings this program handles. -/
def py_lower (s : String) : String :=
  String.mk (s.data.map Char.toLower)

def py_contains_aux (needle : List Char) : List Char → Bool
  | [] => needle.isEmpty
  | c :: rest => needle.isPrefixOf (c :: rest) || py_contains_aux needle rest

/-- Python membership test on strings: py_contains hay needle models the expression
needle in hay. -/
def py_contains (hay needle : String) : Bool :=
  py_contains_aux needle.data hay.data

/-- The whitespace characters Python str.strip removes, restricted to ASCII. -/
def is_py_space (c : Char) : Bool :=
  c = ' ' || c = '\t' || c = '\n' || c = '\r' || c = '\x0b' || c = '\x0c'

/-- Python str.strip with no argument. -/
def py_strip (s : String) : String :=
  String.mk (((s.data.dropWhile is_py_space).reverse.dropWhile is_py_space).reverse)

def split_char_aux (sep : Char) : List Char → List (List Char)
  | [] => [[]]
  | c :: rest =>
    if c = sep then [] :: split_char_aux sep rest
    else
      match split_char_aux sep rest with
      | [] => [[c]]
      | piece :: pieces => (c :: piece) :: pieces

/-- Python str.split with an explicit one-character separator: empty pieces are kept. -/
def py_split (s : String) (sep : Char) : List String :=
  (split_char_aux sep s.data).map String.mk

/-- One pass of Python str.replace: fuelled so the recursion is structural; the fuel
is the length of the scanned text, which suffices because the callers only use
non-empty patterns, and each step consumes at least one character. -/
def py_replace_fuel (pat rep : List Char) : Nat → List Char → List Char
  | _, [] => []
  | 0, l => l
  | Nat.succ fuel, c :: rest =>
    if pat.isPrefixOf (c :: rest) then
      rep ++ py_replace_fuel pat rep fuel ((c :: rest).drop pat.length)
    else
      c :: py_replace_fuel pat rep fuel rest

/-- Python str.replace: every non-overlapping occurrence of pat, left to right. -/
def py_replace (s pat rep : String) : String :=
  String.mk (py_replace_fuel pat.data rep.data s.data.length s.data)

/-- Python str.find for a single character: first index, or -1 when absent. -/
def py_find_char (s : String) (c : Char) : Int :=
  match s.data.findIdx? (fun a => a = c) with
  | some i => (i : Int)
  | none => -1

/-- Python str.rfind for a single character: last index, or -1 when absent. -/
def py_rfind_char (s : String) (c : Char) : Int :=
  match s.data.reverse.findIdx? (fun a => a = c) with
  | some i => ((s.data.length - 1 - i : Nat) : Int)
  | none => -1

/-- Python slicing s[a:b] for non-negative bounds (out-of-range bounds clamp). -/
def py_slice (s : String) (a b : Nat) : String :=
  String.mk ((s.data.take b).drop a)

def py_str_lt_aux : List Char → List Char → Bool
  | [], [] => false
  | [], _ :: _ => true
  | _ :: _, [] => false
  | a :: as, b :: bs => if a < b then true else if b < a then false else py_str_lt_aux as bs

/-- Python string comparison: lexicographic on code points. -/
def py_str_lt (s t : String) : Bool :=
  py_str_lt_aux s.data t.data

/-! QuestionBank (app/question_bank.py). The static mapping self.questions, transcribed
verbatim: role, then experience level, then category. -/

def pd_entry_technical : List String := [
  "What is Python? What are its key features?",
  "Explain the difference between lists and tuples in Python.",
  "What is a dictionary in Python? How is it different from a list?",
  "What are decorators in Python? Give an example.",
  "Explain the concept of inheritance in Python.",
  "What is the difference between 'is' and '==' in Python?",
  "How do you handle exceptions in Python?",
  "What is the difference between append() and extend() in Python lists?",
  "Explain the concept of generators in Python.",
  "What is the purpose of the 'self' parameter in Python classes?"]

def pd_entry_behavioral : List String := [
  "Tell me about a time when you had to learn a new programming language or technology.",
  "How do you handle tight deadlines?",
  "Describe a challenging problem you solved during your studies or projects.",
  "How do you stay updated with the latest programming trends?",
  "Tell me about a project you're most proud of."]

def pd_mid_technical : List String := [
  "Explain the GIL (Global Interpreter Lock) in Python.",
  "How does memory management work in Python?",
  "What are metaclasses in Python? When would you use them?",
  "Explain the difference between multiprocessing and threading in Python.",
  "How do you optimize Python code for performance?",
  "What is the purpose of __init__.py files?",
  "Explain the concept of context managers in Python.",
  "How do you handle database connections in Python?",
  "What are the differences between asyncio and threading?",
  "Explain the concept of decorators with parameters."]

def pd_mid_behavioral : List String := [
  "How do you mentor junior developers?",
  "Describe a time when you had to refactor a large codebase.",
  "How do you handle disagreements with team members?",
  "Tell me about a time when you had to make a difficult technical decision.",
  "How do you ensure code quality in your projects?"]

def ds_entry_technical : List String := [
  "What is the difference between supervised and unsupervised learning?",
  "Explain the concept of overfitting in machine learning.",
  "What is the purpose of cross-validation?",
  "How do you handle missing data in a dataset?",
  "What is the difference between correlation and causation?",
  "Explain the concept of feature scaling.",
  "What is the purpose of the train-test split?",
  "How do you evaluate the performance of a classification model?",
  "What is the difference between mean, median, and mode?",
  "Explain the concept of hypothesis testing."]

def ds_entry_behavioral : List String := [
  "Tell me about a data analysis project you worked on.",
  "How do you handle large datasets?",
  "Describe a time when you had to explain complex statistical concepts to non-technical people.",
  "How do you stay updated with the latest developments in data science?",
  "Tell me about a time when you had to deal with messy data."]

/-- The QuestionBank.questions dictionary: insertion-ordered string-keyed mappings
become association lists. -/
def question_bank : List (String × List (String × List (String × List String))) := [
  ("Python Developer", [
    ("Entry-level", [("Technical", pd_entry_technical), ("Behavioral", pd_entry_behavioral)]),
    ("Mid-level", [("Technical", pd_mid_technical), ("Behavioral", pd_mid_behavioral)])]),
  ("Data Scientist", [
    ("Entry-level", [("Technical", ds_entry_technical), ("Behavioral", ds_entry_behavioral)])])]

/-- The body of QuestionBank.get_questions before the final truncation: resolve the
role (default "Python Developer"), resolve the level (default "Entry-level"), then
extend over the category list ["Technical", "Behavioral"]. -/
def resolved_questions (job_role experience_level : String) : List String :=
  let role := if (question_bank.lookup job_role).isSome then job_role else "Python Developer"
  let role_map := (question_bank.lookup role).getD []
  let level := if (role_map.lookup experience_level).isSome then experience_level else "Entry-level"
  let level_map := (role_map.lookup level).getD []
  ["Technical", "Behavioral"].foldl (fun acc category => acc ++ ((level_map.lookup category).getD [])) []

/-- QuestionBank.get_questions. -/
def get_questions (job_role experience_level : String) (num_questions : Nat) : List String :=
  (resolved_questions job_role experience_level).take num_questions

/-- The category list selected by get_questions for one category, after both default
substitutions; used to state how the two categories are concatenated. -/
def resolved_category (job_role experience_level category : String) : List String :=
  let role := if (question_bank.lookup job_role).isSome then job_role else "Python Developer"
  let role_map := (question_bank.lookup role).getD []
  let level := if (role_map.lookup experience_level).isSome then experience_level else "Entry-level"
  let level_map := (role_map.lookup level).getD []
  (level_map.lookup category).getD []

/-! QuestionGenerator (app/question_generator.py). Effects are explicit: the remote
call either is not attempted (no API key), raises, or yields a response string; the
json.loads library call is a parameter that either raises or yields a JSON value,
classified here as a list of strings or anything else (the only distinction the code
makes). -/

/-- What json.loads can hand back, as far as generate_questions inspects it: a JSON
list whose members are all strings, or any other JSON value. -/
inductive JsonValue where
  | str_list : List String → JsonValue
  | other : JsonValue

/-- The outcome of the remote completion call inside generate_questions: the API is
unavailable or the key invalid (no call made), the call raised, or it returned a
response string (LLMChain.run returns str). -/
inductive RemoteOutcome where
  | no_api : RemoteOutcome
  | call_error : RemoteOutcome
  | response : String → RemoteOutcome

/-- QuestionGenerator._get_local_questions. Its except-branch (five default questions)
is dead in this model because QuestionBank.get_questions is total: the Python body
only does dictionary lookups guarded by membership tests. -/
def get_local_questions (job_role experience_level : String) (num_questions : Nat) : List String :=
  get_questions job_role experience_level num_questions

/-- The condition result.find of the bracket and result.rfind of the closing bracket
under which generate_questions attempts json.loads: start_idx >= 0 and end_idx > start_idx. -/
def bracket_found (result : String) : Bool :=
  decide (0 ≤ py_find_char result '[') && decide (py_find_char result '[' < py_rfind_char result ']' + 1)

/-- The substring result[start_idx:end_idx] handed to json.loads. -/
def json_candidate (result : String) : String :=
  py_slice result (py_find_char result '[').toNat (py_rfind_char result ']' + 1).toNat

/-- The three cleaning passes of the line-based extraction: split on newlines, strip
and drop blanks, delete every occurrence of the list markers, strip and drop blanks
again. -/
def cleaned_lines (result : String) : List String :=
  let qs1 := ((py_split result '\n').map py_strip).filter (fun q => q ≠ "")
  let qs2 := qs1.map (fun q =>
    py_replace (py_replace (py_replace (py_replace (py_replace (py_replace q "- " "") "1." "") "2." "") "3." "") "4." "") "5." "")
  ((qs2.map py_strip).filter (fun q => q ≠ ""))

/-- Line-based extraction fallback of generate_questions: the cleaned lines truncated
to num_questions. -/
def extract_from_text (result : String) (num_questions : Nat) : List String :=
  (cleaned_lines result).take num_questions

/-- Parsing of a string API response inside generate_questions: when a bracketed
region exists, json.loads is attempted on it; a raised parse error falls back to the
local bank, a JSON list of strings is truncated and returned, and anything else falls
through to the line-based extraction over the whole response. -/
def parse_api_result (json_loads : String → Except Unit JsonValue) (result : String)
    (job_role experience_level : String) (num_questions : Nat) : List String :=
  if bracket_found result then
    match json_loads (json_candidate result) with
    | Except.error _ => get_local_questions job_role experience_level num_questions
    | Except.ok (JsonValue.str_list questions) => questions.take num_questions
    | Except.ok JsonValue.other => extract_from_text result num_questions
  else
    extract_from_text result num_questions

/-- QuestionGenerator.generate_questions. A raised ValueError is an Except.error with
the message the code raises; every non-raising path is an Except.ok. The API branch is
taken when the outcome carries a call result, the local-bank branch otherwise, and any
upstream failure is absorbed into the local-bank call. -/
def generate_questions (json_loads : String → Except Unit JsonValue) (outcome : RemoteOutcome)
    (job_role experience_level : String) (skills : List String) (num_questions : Nat) :
    Except String (List String) :=
  if job_role = "" ∨ experience_level = "" ∨ skills = [] then
    Except.error "Missing required parameters"
  else if num_questions < 1 ∨ 50 < num_questions then
    Except.error "Number of questions must be between 1 and 50"
  else
    match outcome with
    | RemoteOutcome.no_api => Except.ok (get_local_questions job_role experience_level num_questions)
    | RemoteOutcome.call_error => Except.ok (get_local_questions job_role experience_level num_questions)
    | RemoteOutcome.response result =>
        Except.ok (parse_api_result json_loads result job_role experience_level num_questions)

/-! VectorStorage (app/vector_storage.py), flat-file local-storage path (the
use_local_storage mode every claim addresses). The backing file
data/questions_storage.json holds a JSON array of session objects; it is modelled as a
list of SessionEntry values. File I/O can fail: a read failure makes
_get_local_storage return the empty list, a write failure makes _save_local_storage
swallow the exception and leave the file as it was. Both are explicit flags. -/

/-- One stored session object, with the exact fields _store_questions_locally writes. -/
structure SessionEntry where
  job_role : String
  experience_level : String
  skills : List String
  session_id : String
  is_personalized : Bool
  timestamp : String
  questions : List String
deriving DecidableEq

/-- Which file operations fail during a call: reading or writing the backing file. -/
structure IoModel where
  read_fails : Bool
  save_fails : Bool
deriving DecidableEq

/-- The I/O model in which the flat file is read and written normally. -/
def ok_io : IoModel := ⟨false, false⟩

/-- VectorStorage._get_local_storage: on any read error the except-branch returns []. -/
def get_local_storage (io : IoModel) (file : List SessionEntry) : List SessionEntry :=
  if io.read_fails then [] else file

/-- VectorStorage._save_local_storage: the new file contents. On a write error the
exception is caught and printed, so the file keeps its previous contents and the
caller is not told. -/
def save_local_storage (io : IoModel) (file data : List SessionEntry) : List SessionEntry :=
  if io.save_fails then file else data

/-- Resolution of the optional session_id argument of store_questions: a missing or
falsy (empty) id is replaced by a fresh uuid4 string, here a parameter. -/
def resolve_session_id (session_id : Option String) (fresh_uuid : String) : String :=
  match session_id with
  | none => fresh_uuid
  | some s => if s = "" then fresh_uuid else s

/-- VectorStorage._store_questions_locally: read, append the new entry, save, return
True. The timestamp is datetime.now().isoformat(), here a parameter. Its
except-branch (return False) is dead in this model because read and save errors are
already absorbed inside the two helpers. -/
def store_questions_locally (io : IoModel) (file : List SessionEntry)
    (questions : List String) (job_role experience_level : String) (skills : List String)
    (session_id : String) (is_personalized : Bool) (timestamp : String) :
    Bool × List SessionEntry :=
  let data := get_local_storage io file
  let entry : SessionEntry :=
    ⟨job_role, experience_level, skills, session_id, is_personalized, timestamp, questions⟩
  let data2 := data ++ [entry]
  (true, save_local_storage io file data2)

/-- VectorStorage.store_questions in local-storage mode: an empty questions list
returns False at once (the only validation), otherwise the session id is resolved and
the entry stored locally. -/
def store_questions (io : IoModel) (file : List SessionEntry)
    (questions : List String) (job_role experience_level : String) (skills : List String)
    (session_id : Option String) (is_personalized : Bool)
    (fresh_uuid : String) (timestamp : String) : Bool × List SessionEntry :=
  if questions = [] then (false, file)
  else
    store_questions_locally io file questions job_role experience_level skills
      (resolve_session_id session_id fresh_uuid) is_personalized timestamp

/-- The per-entry score of _search_questions_locally over the lowercased skills: the
first matching skill adds 2 and the loop breaks. -/
def match_score_skills (query : String) : List String → Nat
  | [] => 0
  | skill :: rest => if py_contains (py_lower skill) query then 2 else match_score_skills query rest

/-- The per-entry score of _search_questions_locally over the questions: each
matching question text adds 1. -/
def match_score_questions (query : String) : List String → Nat
  | [] => 0
  | q :: rest => (if py_contains (py_lower q) query then 1 else 0) + match_score_questions query rest

/-- The match_score a stored entry receives in _search_questions_locally for an
already-lowercased query: 3 for the role, 2 for at most one skill, 1 per matching
question. The experience_level field is never consulted. -/
def match_score (query : String) (entry : SessionEntry) : Nat :=
  (if py_contains (py_lower entry.job_role) query then 3 else 0)
    + match_score_skills query entry.skills
    + match_score_questions query entry.questions

/-- The accumulation loop of _search_questions_locally: entries with positive score,
paired with their score, in insertion order. -/
def search_loop (query : String) : List SessionEntry → List (Nat × SessionEntry)
  | [] => []
  | entry :: rest =>
    if 0 < match_score query entry then
      (match_score query entry, entry) :: search_loop query rest
    else
      search_loop query rest

/-- Stable insertion step for results.sort on the score with reverse order: a later
element passes every earlier element of strictly larger score and stops before equal
ones. -/
def insert_scored (x : Nat × SessionEntry) : List (Nat × SessionEntry) → List (Nat × SessionEntry)
  | [] => [x]
  | y :: ys => if x.1 < y.1 then y :: insert_scored x ys else x :: y :: ys

/-- results.sort(key score, reverse) of _search_questions_locally. Python list.sort
is stable, and a stable sort by score descending has a unique output, so this
insertion sort is the same function. -/
def sort_scored : List (Nat × SessionEntry) → List (Nat × SessionEntry)
  | [] => []
  | x :: xs => insert_scored x (sort_scored xs)

/-- VectorStorage._search_questions_locally: lowercase the query, score every stored
entry, keep positive scores, sort by score descending (ties in insertion order), take
the limit, and drop the scores. The second component is the backing file after the
call: the function never writes. -/
def search_questions_locally (io : IoModel) (file : List SessionEntry)
    (query : String) (search_limit : Nat) : List SessionEntry × List SessionEntry :=
  let data := get_local_storage io file
  let q := py_lower query
  (((sort_scored (search_loop q data)).take search_limit).map Prod.snd, file)

/-- Stable insertion step for data.sort on the timestamp with reverse order. -/
def insert_by_time (x : SessionEntry) : List SessionEntry → List SessionEntry
  | [] => [x]
  | y :: ys => if py_str_lt x.timestamp y.timestamp then y :: insert_by_time x ys else x :: y :: ys

/-- data.sort(key timestamp, reverse) of _get_recent_sessions_locally: stable,
timestamp descending. -/
def sort_by_time_desc : List SessionEntry → List SessionEntry
  | [] => []
  | x :: xs => insert_by_time x (sort_by_time_desc xs)

/-- VectorStorage._get_recent_sessions_locally: read, sort by timestamp descending,
take the limit. The second component is the backing file after the call: the function
never writes. -/
def get_recent_sessions_locally (io : IoModel) (file : List SessionEntry)
    (session_limit : Nat) : List SessionEntry × List SessionEntry :=
  ((sort_by_time_desc (get_local_storage io file)).take session_limit, file)

/-! Specification-side definitions for the search claim (C5). spec_score follows the
amended wording of the matching policy: case-insensitive substring match, role weight
3, skill weight 2 at most once, question-text weight 1 per matching question. -/

/-- Score of one stored session under the spec's amended matching policy, for an
already-lowercased query. -/
def spec_score (query : String) (entry : SessionEntry) : Nat :=
  (if py_contains (py_lower entry.job_role) query then 3 else 0)
    + (if entry.skills.any (fun skill => py_contains (py_lower skill) query) then 2 else 0)
    + entry.questions.countP (fun q => py_contains (py_lower q) query)

/-- The search result under the spec's amended wording: exactly the sessions with
positive score, sorted by score descending with ties in insertion order, truncated to
the limit. -/
def spec_search (file : List SessionEntry) (query : String) (search_limit : Nat) :
    List SessionEntry :=
  let q := py_lower query
  let scored := (file.map (fun entry => (spec_score q entry, entry))).filter
    (fun p => decide (0 < p.1))
  ((sort_scored scored).take search_limit).map Prod.snd

/-- A session stored under the spec's running example, used for the case-insensitivity
instance of the search claim. -/
def python_dev_session : SessionEntry :=
  ⟨"Python Developer", "Entry-level", ["Python", "Django"], "session-1", false,
    "2024-05-01T10:00:00", ["What is a decorator?"]⟩

/-- A session whose experience_level matches a query that matches nothing else, used
to separate the code's scoring from the spec's. -/
def senior_session : SessionEntry :=
  ⟨"Backend Developer", "Senior", ["java"], "session-2", false,
    "2024-05-01T11:00:00", ["Describe a system you designed."]⟩

/-! Helper lemmas. -/

lemma resolved_questions_eq (job_role experience_level : String) :
    resolved_questions job_role experience_level
      = resolved_category job_role experience_level "Technical"
        ++ resolved_category job_role experience_level "Behavioral" := by
  simp only [resolved_questions, resolved_category, List.foldl_cons, List.foldl_nil,
    List.nil_append]

lemma get_questions_length_le (job_role experience_level : String) (n : Nat) :
    (get_questions job_role experience_level n).length ≤ n := by
  unfold get_questions
  exact List.length_take_le _ _

lemma extract_from_text_length_le (result : String) (n : Nat) :
    (extract_from_text result n).length ≤ n := by
  unfold extract_from_text
  exact List.length_take_le _ _

lemma parse_api_result_length_le (json_loads : String → Except Unit JsonValue)
    (result job_role experience_level : String) (n : Nat) :
    (parse_api_result json_loads result job_role experience_level n).length ≤ n := by
  unfold parse_api_result
  split
  · split
    · exact get_questions_length_le _ _ _
    · exact List.length_take_le _ _
    · exact extract_from_text_length_le _ _
  · exact extract_from_text_length_le _ _

lemma match_score_skills_eq (query : String) (skills : List String) :
    match_score_skills query skills
      = if skills.any (fun skill => py_contains (py_lower skill) query) then 2 else 0 := by
  induction skills with
  | nil => rfl
  | cons s rest ih =>
    by_cases h : py_contains (py_lower s) query
    · simp [match_score_skills, h]
    · simp [match_score_skills, h, ih]

lemma match_score_questions_eq (query : String) (questions : List String) :
    match_score_questions query questions
      = questions.countP (fun q => py_contains (py_lower q) query) := by
  induction questions with
  | nil => rfl
  | cons q rest ih =>
    simp only [match_score_questions, ih, List.countP_cons]
    omega

lemma match_score_eq_spec (query : String) (entry : SessionEntry) :
    match_score query entry = spec_score query entry := by
  unfold match_score spec_score
  rw [match_score_skills_eq, match_score_questions_eq]

lemma search_loop_eq (query : String) (data : List SessionEntry) :
    search_loop query data
      = (data.map (fun entry => (match_score query entry, entry))).filter
          (fun p => decide (0 < p.1)) := by
  induction data with
  | nil => rfl
  | cons entry rest ih =>
    by_cases h : 0 < match_score query entry
    · simp [search_loop, h, ih]
    · simp [search_loop, h, ih]

lemma sort_by_time_append_max (x : SessionEntry) (l : List SessionEntry)
    (h : ∀ e ∈ l, py_str_lt e.timestamp x.timestamp = true) :
    sort_by_time_desc (l ++ [x]) = x :: sort_by_time_desc l := by
  induction l with
  | nil => rfl
  | cons y l ih =>
    have hy : py_str_lt y.timestamp x.timestamp = true := h y (List.mem_cons_self _ _)
    have ih2 := ih (fun e he => h e (List.mem_cons_of_mem _ he))
    show insert_by_time y (sort_by_time_desc (l ++ [x])) = x :: insert_by_time y (sort_by_time_desc l)
    rw [ih2]
    simp [insert_by_time, hy]

/-- A stored session older than the ones the round-trip witness stores. -/
def old_session : SessionEntry :=
  ⟨"Data Scientist", "Entry-level", ["statistics"], "session-0", false,
    "2024-04-30T09:00:00", ["What is overfitting?"]⟩

/-! The claims. -/

/-- C1: for every valid input (non-empty job_role, experience_level and skills, and
1 ≤ num_questions ≤ 50), generate_questions returns a list of question strings of
length at most num_questions, whatever the remote outcome and json.loads behaviour,
including when the result comes from the local-bank fallback. -/
theorem generate_questions_length_bound
    (json_loads : String → Except Unit JsonValue) (outcome : RemoteOutcome)
    (job_role experience_level : String) (skills : List String) (n : Nat)
    (hrole : job_role ≠ "") (hlevel : experience_level ≠ "") (hskills : skills ≠ [])
    (h1 : 1 ≤ n) (h2 : n ≤ 50) :
    ∃ qs, generate_questions json_loads outcome job_role experience_level skills n
        = Except.ok qs ∧ qs.length ≤ n := by
  have hv : ¬(job_role = "" ∨ experience_level = "" ∨ skills = []) := by
    push_neg
    exact ⟨hrole, hlevel, hskills⟩
  have hn : ¬(n < 1 ∨ 50 < n) := by omega
  unfold generate_questions
  rw [if_neg hv, if_neg hn]
  cases outcome with
  | no_api => exact ⟨_, rfl, get_questions_length_le _ _ _⟩
  | call_error => exact ⟨_, rfl, get_questions_length_le _ _ _⟩
  | response result => exact ⟨_, rfl, parse_api_result_length_le _ _ _ _ _⟩

/-- C1 witness: the bound at a concrete valid input with the API unavailable. -/
theorem generate_questions_length_bound_witness :
    ∃ qs, generate_questions (fun _ => Except.error ()) RemoteOutcome.no_api
        "Python Developer" "Entry-level" ["python"] 5 = Except.ok qs ∧ qs.length ≤ 5 :=
  generate_questions_length_bound (fun _ => Except.error ()) RemoteOutcome.no_api
    "Python Developer" "Entry-level" ["python"] 5 (by decide) (by decide) (by decide)
    (by decide) (by decide)

/-- C2: on valid inputs, a raised remote call and a raised json.loads parse are both
absorbed: generate_questions returns Except.ok of exactly the Local Question Bank
result for the same job_role, experience_level and num_questions, and no error is
propagated (the fallback itself is a total function). -/
theorem generate_questions_absorbs_upstream_errors
    (json_loads : String → Except Unit JsonValue)
    (job_role experience_level : String) (skills : List String) (n : Nat)
    (hrole : job_role ≠ "") (hlevel : experience_level ≠ "") (hskills : skills ≠ [])
    (h1 : 1 ≤ n) (h2 : n ≤ 50) :
    generate_questions json_loads RemoteOutcome.call_error job_role experience_level skills n
        = Except.ok (get_local_questions job_role experience_level n)
    ∧ ∀ result, bracket_found result = true →
        json_loads (json_candidate result) = Except.error () →
        generate_questions json_loads (RemoteOutcome.response result)
            job_role experience_level skills n
          = Except.ok (get_local_questions job_role experience_level n) := by
  have hv : ¬(job_role = "" ∨ experience_level = "" ∨ skills = []) := by
    push_neg
    exact ⟨hrole, hlevel, hskills⟩
  have hn : ¬(n < 1 ∨ 50 < n) := by omega
  constructor
  · unfold generate_questions
    rw [if_neg hv, if_neg hn]
  · intro result hb hj
    unfold generate_questions
    rw [if_neg hv, if_neg hn]
    have hp : parse_api_result json_loads result job_role experience_level n
        = get_local_questions job_role experience_level n := by
      simp [parse_api_result, hb, hj]
    show Except.ok (parse_api_result json_loads result job_role experience_level n)
      = Except.ok (get_local_questions job_role experience_level n)
    rw [hp]

/-- C2 witness: a concrete response whose bracketed region fails to parse falls back
to the local bank. -/
theorem generate_questions_absorbs_upstream_errors_witness :
    generate_questions (fun _ => Except.error ()) (RemoteOutcome.response "[]")
        "Python Developer" "Entry-level" ["python"] 5
      = Except.ok (get_local_questions "Python Developer" "Entry-level" 5) :=
  (generate_questions_absorbs_upstream_errors (fun _ => Except.error ())
    "Python Developer" "Entry-level" ["python"] 5 (by decide) (by decide) (by decide)
    (by decide) (by decide)).2 "[]" (by decide) rfl

/-- C3: an empty job_role, experience_level or skills, or num_questions outside
1..50, makes generate_questions raise ValueError, and the result does not depend on
the remote outcome or on json.loads: no remote call is consulted. -/
theorem generate_questions_rejects_invalid_inputs
    (jl1 jl2 : String → Except Unit JsonValue) (o1 o2 : RemoteOutcome)
    (job_role experience_level : String) (skills : List String) (n : Nat)
    (h : job_role = "" ∨ experience_level = "" ∨ skills = [] ∨ n < 1 ∨ 50 < n) :
    (∃ msg, generate_questions jl1 o1 job_role experience_level skills n = Except.error msg)
    ∧ generate_questions jl1 o1 job_role experience_level skills n
        = generate_questions jl2 o2 job_role experience_level skills n := by
  have key : ∃ msg, ∀ (jl : String → Except Unit JsonValue) (o : RemoteOutcome),
      generate_questions jl o job_role experience_level skills n = Except.error msg := by
    by_cases hv : job_role = "" ∨ experience_level = "" ∨ skills = []
    · exact ⟨"Missing required parameters", fun jl o => by
        unfold generate_questions
        rw [if_pos hv]⟩
    · have hn : n < 1 ∨ 50 < n := by tauto
      exact ⟨"Number of questions must be between 1 and 50", fun jl o => by
        unfold generate_questions
        rw [if_neg hv, if_pos hn]⟩
  obtain ⟨msg, hmsg⟩ := key
  exact ⟨⟨msg, hmsg jl1 o1⟩, by rw [hmsg jl1 o1, hmsg jl2 o2]⟩

/-- C3 witness: num_questions = 0 and num_questions = 51 both fail with a ValueError
at a concrete input. -/
theorem generate_questions_rejects_invalid_inputs_witness :
    (∃ msg, generate_questions (fun _ => Except.error ()) RemoteOutcome.no_api
        "Python Developer" "Entry-level" ["python"] 0 = Except.error msg)
    ∧ (∃ msg, generate_questions (fun _ => Except.error ()) RemoteOutcome.no_api
        "Python Developer" "Entry-level" ["python"] 51 = Except.error msg) :=
  ⟨(generate_questions_rejects_invalid_inputs (fun _ => Except.error ())
      (fun _ => Except.error ()) RemoteOutcome.no_api RemoteOutcome.no_api
      "Python Developer" "Entry-level" ["python"] 0 (by decide)).1,
    (generate_questions_rejects_invalid_inputs (fun _ => Except.error ())
      (fun _ => Except.error ()) RemoteOutcome.no_api RemoteOutcome.no_api
      "Python Developer" "Entry-level" ["python"] 51 (by decide)).1⟩

/-- C4 counterexample: store_questions accepts a session whose job_role,
experience_level and skills are all empty; it reports success and appends a record,
where the claim demands a ValidationError with the store unchanged. -/
theorem store_questions_accepts_empty_fields :
    (store_questions ok_io [] ["Q1"] "" "" [] none false "uuid-1" "2024-05-01T10:00:00").1
        = true
    ∧ (store_questions ok_io [] ["Q1"] "" "" [] none false "uuid-1" "2024-05-01T10:00:00").2
        = [⟨"", "", [], "uuid-1", false, "2024-05-01T10:00:00", ["Q1"]⟩] :=
  ⟨rfl, rfl⟩

/-- C4 (amended): the only validation in store_questions is on questions: an empty
questions list fails (returns False) and leaves the backing store unchanged, while a
non-empty questions list always reports success, with no check on job_role,
experience_level or skills. -/
theorem store_questions_empty_questions_only
    (io : IoModel) (file : List SessionEntry) (job_role experience_level : String)
    (skills : List String) (session_id : Option String) (is_personalized : Bool)
    (fresh_uuid timestamp : String) :
    store_questions io file [] job_role experience_level skills session_id
        is_personalized fresh_uuid timestamp = (false, file)
    ∧ ∀ q qs, (store_questions io file (q :: qs) job_role experience_level skills
        session_id is_personalized fresh_uuid timestamp).1 = true :=
  ⟨rfl, fun _ _ => rfl⟩

/-- C5 counterexample: a query that matches only the experience_level of a stored
session (case-insensitively) scores 0 and is not returned, where the claim counts an
experience_level match into the score. -/
theorem search_skips_experience_level :
    (search_questions_locally ok_io [senior_session] "Senior" 10).1 = []
    ∧ py_contains (py_lower senior_session.experience_level) (py_lower "Senior") = true :=
  ⟨rfl, rfl⟩

/-- C5 (amended): the flat-file search scores each stored session by case-insensitive
substring matching of the query against job_role (weight 3), the skill entries
(weight 2, at most once) and each question text (weight 1 per matching question,
cumulative) — experience_level is not consulted — and returns exactly the sessions
with positive score, sorted by score descending with ties in insertion order,
truncated to the limit; in particular the searches for "python" and "PYTHON" against
the stored Python Developer session agree. -/
theorem search_questions_matches_spec :
    (∀ (file : List SessionEntry) (query : String) (search_limit : Nat),
        (search_questions_locally ok_io file query search_limit).1
          = spec_search file query search_limit)
    ∧ (search_questions_locally ok_io [python_dev_session] "python" 10).1
        = (search_questions_locally ok_io [python_dev_session] "PYTHON" 10).1 := by
  constructor
  · intro file query search_limit
    show ((sort_scored (search_loop (py_lower query) file)).take search_limit).map Prod.snd
      = spec_search file query search_limit
    rw [search_loop_eq]
    simp only [spec_search, match_score_eq_spec]
  · rfl

/-- C6: QuestionBank.get_questions is total, substitutes the default role for an
unknown job_role (and the default level for an unknown experience_level), and returns
the Technical list followed by the Behavioral list truncated to the limit; in
particular the Unknown Role / Unknown Level query equals the Python Developer /
Entry-level one. -/
theorem get_questions_total_with_defaults :
    get_questions "Unknown Role" "Unknown Level" 5
        = get_questions "Python Developer" "Entry-level" 5
    ∧ (∀ (job_role experience_level : String) (n : Nat),
        question_bank.lookup job_role = none →
        get_questions job_role experience_level n
          = get_questions "Python Developer" experience_level n)
    ∧ (∀ (job_role experience_level : String) (n : Nat),
        get_questions job_role experience_level n
          = (resolved_category job_role experience_level "Technical"
              ++ resolved_category job_role experience_level "Behavioral").take n) := by
  refine ⟨rfl, ?_, ?_⟩
  · intro job_role experience_level n h
    unfold get_questions resolved_questions
    rw [h]
    rfl
  · intro job_role experience_level n
    unfold get_questions
    rw [resolved_questions_eq]

/-- C6 witness: the default substitution at a concrete unknown role. -/
theorem get_questions_total_with_defaults_witness :
    get_questions "Unknown Role" "Mid-level" 3 = get_questions "Python Developer" "Mid-level" 3 :=
  get_questions_total_with_defaults.2.1 "Unknown Role" "Mid-level" 3 (by decide)

/-- C7: a successful store_questions of a non-empty question list, stamped later than
every session already in the flat-file store, followed by get_recent_sessions(1)
returns exactly the just-stored session — same resolved session_id, identical
question list — because the recent listing orders by timestamp descending. -/
theorem store_then_recent_roundtrip
    (file : List SessionEntry) (q0 : String) (qs : List String)
    (job_role experience_level : String) (skills : List String)
    (session_id : Option String) (is_personalized : Bool) (fresh_uuid ts : String)
    (hts : ∀ e ∈ file, py_str_lt e.timestamp ts = true) :
    (store_questions ok_io file (q0 :: qs) job_role experience_level skills session_id
        is_personalized fresh_uuid ts).1 = true
    ∧ (get_recent_sessions_locally ok_io
        (store_questions ok_io file (q0 :: qs) job_role experience_level skills session_id
          is_personalized fresh_uuid ts).2 1).1
      = [⟨job_role, experience_level, skills, resolve_session_id session_id fresh_uuid,
          is_personalized, ts, q0 :: qs⟩] := by
  have hstore : store_questions ok_io file (q0 :: qs) job_role experience_level skills
      session_id is_personalized fresh_uuid ts
      = (true, file ++ [⟨job_role, experience_level, skills,
          resolve_session_id session_id fresh_uuid, is_personalized, ts, q0 :: qs⟩]) := rfl
  constructor
  · rw [hstore]
  · rw [hstore]
    show (sort_by_time_desc (file ++ [⟨job_role, experience_level, skills,
        resolve_session_id session_id fresh_uuid, is_personalized, ts, q0 :: qs⟩])).take 1 = _
    rw [sort_by_time_append_max _ file hts]
    rfl

/-- C7 witness: the round trip at a concrete store holding one older session. -/
theorem store_then_recent_roundtrip_witness :
    (store_questions ok_io [old_session] ["Q1", "Q2"] "Python Developer" "Entry-level"
        ["python"] none false "uuid-9" "2024-05-01T09:00:00").1 = true
    ∧ (get_recent_sessions_locally ok_io
        (store_questions ok_io [old_session] ["Q1", "Q2"] "Python Developer" "Entry-level"
          ["python"] none false "uuid-9" "2024-05-01T09:00:00").2 1).1
      = [⟨"Python Developer", "Entry-level", ["python"], resolve_session_id none "uuid-9",
          false, "2024-05-01T09:00:00", ["Q1", "Q2"]⟩] :=
  store_then_recent_roundtrip [old_session] "Q1" ["Q2"] "Python Developer" "Entry-level"
    ["python"] none false "uuid-9" "2024-05-01T09:00:00" (by decide)

/-- C8: a remote response of numbered lines with no brackets goes through the
line-based extraction: split on line breaks, blanks dropped, list markers removed,
whitespace trimmed, truncated to num_questions — so "1. Explain X" and "2. Explain Y"
parse to exactly ["Explain X", "Explain Y"], whatever json.loads would have done. -/
theorem extract_numbered_lines_example (json_loads : String → Except Unit JsonValue) :
    generate_questions json_loads (RemoteOutcome.response "1. Explain X\n2. Explain Y")
        "Python Developer" "Entry-level" ["python"] 10
      = Except.ok ["Explain X", "Explain Y"] := rfl

/-- C9 evaluation: when writing the backing file raises, _save_local_storage swallows
the error and _store_questions_locally still returns True, so the failed store is
reported as a success and the file keeps its old contents — against the claim that a
write error surfaces as a failure result. -/
theorem store_write_error_reported_success :
    store_questions ⟨false, true⟩ [] ["Q1"] "Python Developer" "Entry-level" ["python"]
        none false "uuid-1" "2024-05-01T10:00:00"
      = (true, []) := rfl

/-- C10: the flat-file read operations never write: after search_questions and
get_recent_sessions the backing file holds exactly the sessions it held before, for
every store state, query and limit, even when reading fails. -/
theorem reads_preserve_store (io : IoModel) (file : List SessionEntry) (query : String)
    (search_limit session_limit : Nat) :
    (search_questions_locally io file query search_limit).2 = file
    ∧ (get_recent_sessions_locally io file session_limit).2 = file :=
  ⟨rfl, rfl⟩
